import Mathlib

/-!
Shallow embedding of `src/external/models.py` from the ExperimentDB
repository: the `Contact`, `Reference` and `Vendor` Django models, their
overridden `save` methods, the helper methods `doi_link` and `full_pmcid`,
the `PUBLICATION_TYPES` choice set, and the `Meta.ordering` declarations.

The `save` functions below embed the body of each overridden `save`: they
return the record exactly as it is handed to `super().save()` (the
persistence layer). Django's id assignment on insert is modelled
separately (`Reference.dbAssignId`) so that multi-save scenarios can be
stated.

The code calls `django.template.defaultfilters.slugify` (Django 1.3 era,
matching this Python-2 codebase). That function is embedded here
faithfully from its implementation:
  1. NFKD-normalise and `encode('ascii','ignore')` — on the ASCII
     fragment this deletes all characters with codepoint >= 128;
  2. `re.sub('[^\x5cw\x5cs-]', '', value)` — delete every character that is
     not an ASCII word character (letter, digit, underscore), Python
     whitespace, or a hyphen;
  3. `.strip()` — remove leading and trailing whitespace;
  4. `.lower()` — lowercase ASCII letters;
  5. `re.sub('[-\x5cs]+', '-', value)` — collapse every maximal run of
     hyphens and whitespace into a single hyphen.
-/

namespace ExperimentDB

/-- Python whitespace characters, as matched by `str.strip()` and the
regex class `\x5cs` on byte strings. -/
def isPySpace (c : Char) : Bool :=
  c = ' ' || c = '\t' || c = '\n' || c = '\r' || c = '\x0b' || c = '\x0c'

/-- ASCII word characters, the regex class `\x5cw` on byte strings:
letters, digits and underscore. -/
def isWordAscii (c : Char) : Bool := c.isAlphanum || c = '_'

/-- Characters kept by step 2 of Django slugify: word characters,
whitespace, or hyphen (the regex deletes the complement `[^\x5cw\x5cs-]`). -/
def pyKeep (c : Char) : Bool := isWordAscii c || isPySpace c || c = '-'

/-- Characters surviving `encode('ascii', 'ignore')`. -/
def asciiKeep (c : Char) : Bool := decide (c.toNat < 128)

/-- Python `str.strip()`: drop leading and trailing whitespace. -/
def stripWs (l : List Char) : List Char :=
  ((l.dropWhile isPySpace).reverse.dropWhile isPySpace).reverse

/-- Characters matched by the regex class `[-\x5cs]` in step 5. -/
def isDashSpace (c : Char) : Bool := isPySpace c || c = '-'

/-- Step 5 of Django slugify: `re.sub('[-\x5cs]+', '-', value)`, replacing
every maximal run of hyphens and whitespace by a single hyphen. -/
def collapseRuns : List Char → List Char
  | [] => []
  | [c] => if isDashSpace c then ['-'] else [c]
  | c :: d :: rest =>
      if isDashSpace c then
        if isDashSpace d then collapseRuns (d :: rest)
        else '-' :: collapseRuns (d :: rest)
      else c :: collapseRuns (d :: rest)

/-- Django 1.3 `django.template.defaultfilters.slugify`, on the ASCII
fragment (NFKD normalisation is the identity there; non-ASCII characters
are deleted by the `ascii`/`ignore` encode). -/
def slugify (s : String) : String :=
  ⟨collapseRuns (((stripWs ((s.data.filter asciiKeep).filter pyKeep)).map
    Char.toLower))⟩

/-- Truthiness of a Django primary key in `if not self.id:` — `None` and
`0` are falsy in Python. -/
def idTruthy : Option Nat → Bool
  | none => false
  | some n => n != 0

/-- Contact model, `src/external/models.py` lines 40-69. Optional
(`blank=True, null=True`) columns are `Option`; the implicit Django
primary key is `id`. -/
structure Contact where
  id : Option Nat := none
  first_name : String
  middle_names : Option String := none
  last_name : String
  user : Option Nat := none
  contactID : Option String := none
  email : Option String := none
  website : Option String := none
  address : Option String := none
  comments : Option String := none
  public : Bool
deriving DecidableEq, Repr

/-- Contact `__unicode__`: `u'%s %s' % (self.first_name, self.last_name)`. -/
def Contact.unicodeRepr (c : Contact) : String :=
  c.first_name ++ " " ++ c.last_name

/-- Contact `save` override: `self.contactID = slugify(self.__unicode__())`
followed by `super().save()`. The result is the record handed to the
persistence layer. -/
def Contact.save (c : Contact) : Contact :=
  { c with contactID := some (slugify c.unicodeRepr) }

/-- PUBLICATION_TYPES from `src/external/models.py` lines 14-38: grouped
Django choices, each `(stored value, human label)`. -/
def PUBLICATION_TYPES : List (String × List (String × String)) :=
  [("Most Common",
     [("journal-article", "Journal Article"),
      ("book-section", "Book Section")]),
   ("Less Common",
     [("bill", "Bill"),
      ("book", "Book"),
      ("case", "Case"),
      ("computer-program", "Computer Program"),
      ("conference-proceedings", "Conference Proceedings"),
      ("encyclopedia-article", "Encyclopedia Article"),
      ("film", "Film"),
      ("generic", "Generic"),
      ("magazine-article", "Magazine Article"),
      ("newspaper-article", "Newspaper Article"),
      ("patent", "Patent"),
      ("report", "Report"),
      ("statute", "Statute"),
      ("television-broadcast", "Television Broadcast"),
      ("web-page", "Web Page")])]

/-- Stored values of the grouped choices (what Django validates a
submitted `type` against). -/
def publicationTypeValues : List String :=
  (PUBLICATION_TYPES.map Prod.snd).flatten.map Prod.fst

/-- Reference model, `src/external/models.py` lines 71-118. The two
auto-managed date columns are set by the persistence layer and the
many-to-many `authors` column lives in a join table; `authors` is
modelled as the list of linked AuthorDetails ids. -/
structure Reference where
  id : Option Nat := none
  mendeley_url : Option String := none
  title : String
  authors : List Nat := []
  title_slug : Option String := none
  mendeley_id : Option Int := none
  doi : Option String := none
  pmid : Option Int := none
  pmcid : Option Int := none
  journal : Option String := none
  year : Option Int := none
  volume : Option String := none
  issue : Option String := none
  pages : Option String := none
  abstract : Option String := none
  type : Option String := none
  laboratory_paper : Bool
  interesting_paper : Bool
deriving DecidableEq, Repr

/-- Python `'%s' % x` on an optional string: `None` prints as "None". -/
def pyStrOptS : Option String → String
  | some s => s
  | none => "None"

/-- Python `'%s' % x` on an optional integer. -/
def pyStrOptI : Option Int → String
  | some n => toString n
  | none => "None"

/-- Reference `doi_link`: `'http://dx.doi.org/%s' % self.doi`. -/
def Reference.doi_link (r : Reference) : String :=
  "http://dx.doi.org/" ++ pyStrOptS r.doi

/-- Reference `full_pmcid`: `'PMC%s' % self.pmcid`. -/
def Reference.full_pmcid (r : Reference) : String :=
  "PMC" ++ pyStrOptI r.pmcid

/-- Reference `save` override: `if not self.id: self.title_slug =
slugify(self.title)` followed by `super().save(*args, **kwargs)`. The
result is the record handed to the persistence layer. -/
def Reference.save (r : Reference) : Reference :=
  if idTruthy r.id then r
  else { r with title_slug := some (slugify r.title) }

/-- Persistence-layer id assignment on insert: a record without an id
receives a fresh primary key from the database. -/
def Reference.dbAssignId (r : Reference) (fresh : Nat) : Reference :=
  if idTruthy r.id then r else { r with id := some fresh }

/-- Django model validation of a value against the field's choices
(`Reference.type`, line 91): `None` is allowed (`null=True`), the empty
string is allowed (`blank=True`), and any other value must be among the
stored choice values, else an `invalid_choice` ValidationError. -/
def Reference.validateType (t : Option String) : Except String Unit :=
  match t with
  | none => Except.ok ()
  | some s =>
      if s = "" then Except.ok ()
      else if publicationTypeValues.contains s then Except.ok ()
      else Except.error "invalid_choice"

/-- Vendor model, `src/external/models.py` lines 137-155. `company_slug`
has no `null=True`, so its pre-save default is the empty string. -/
structure Vendor where
  id : Option Nat := none
  company : String
  company_slug : String := ""
deriving DecidableEq, Repr

/-- Vendor `__unicode__`: `u'%s' % self.company`. -/
def Vendor.unicodeRepr (v : Vendor) : String := v.company

/-- Vendor `save` override: `self.company_slug = slugify(self.__unicode__())`
followed by `super().save()`. -/
def Vendor.save (v : Vendor) : Vendor :=
  { v with company_slug := slugify v.unicodeRepr }

/-- Contact listing, embedding `Contact.Meta.ordering = ['last_name']`:
the listing query returns the stored records sorted ascending by
`last_name`. -/
def Contact.listing (db : List Contact) : List Contact :=
  db.mergeSort (fun a b => decide (a.last_name ≤ b.last_name))

/-- Vendor listing, embedding `Vendor.Meta.ordering = ['company']`. -/
def Vendor.listing (db : List Vendor) : List Vendor :=
  db.mergeSort (fun a b => decide (a.company ≤ b.company))

/-- Characters that can appear in a Django slug besides the hyphen:
lowercase ASCII letters, digits, underscore. -/
def isSlugNonDash (c : Char) : Bool := c.isLower || c.isDigit || c = '_'

/-- Characters that can appear in a Django slug. -/
def goodSlugChar (c : Char) : Bool := isSlugNonDash c || c = '-'

/-- Check that no two adjacent characters are both hyphens. -/
def noDD : List Char → Bool
  | [] => true
  | [_] => true
  | a :: b :: rest => (!(a = '-' && b = '-')) && noDD (b :: rest)

/-- Well-formedness of a produced slug: only lowercase ASCII letters,
digits, underscores and hyphens, and no two consecutive hyphens. -/
def goodSlug (s : String) : Bool := s.data.all goodSlugChar && noDD s.data

/-- Modelled from the spec: the spec's slug contract maps every maximal
run of non-alphanumeric characters to a single hyphen, lowercases, and
trims leading and trailing hyphens. This definition follows the spec's
words (for comparison against `slugify`, which embeds the code). -/
def specCollapse : List Char → List Char
  | [] => []
  | [c] => if c.isAlphanum then [c.toLower] else ['-']
  | c :: d :: rest =>
      if c.isAlphanum then c.toLower :: specCollapse (d :: rest)
      else if d.isAlphanum then '-' :: specCollapse (d :: rest)
      else specCollapse (d :: rest)

/-- Modelled from the spec: trim leading and trailing hyphens. -/
def trimDashes (l : List Char) : List Char :=
  ((l.dropWhile (fun c => c == '-')).reverse.dropWhile (fun c => c == '-')).reverse

/-- Modelled from the spec: the slug contract as the spec words it. -/
def specSlug (s : String) : String := ⟨trimDashes (specCollapse s.data)⟩

/-- Check for a successful validation outcome. -/
def isOk : Except String Unit → Bool
  | Except.ok _ => true
  | Except.error _ => false

/-- Concrete Contact whose stored contactID was manually altered. -/
def contactJD : Contact :=
  { first_name := "John", last_name := "Doe", contactID := some "tampered", public := true }

/-- Concrete Contact with in-bounds names whose slug overflows the
contactID column. -/
def contactLong : Contact :=
  { first_name := "abcdefghijklmnopqrstuvwxy", last_name := "z", public := true }

/-- Concrete unsaved Reference titled "Cell Biology 101". -/
def refCell : Reference :=
  { title := "Cell Biology 101", laboratory_paper := false, interesting_paper := false }

/-- Concrete Reference with a DOI. -/
def refDoi : Reference :=
  { title := "T", doi := some "10.1/xyz", laboratory_paper := false, interesting_paper := false }

/-- Concrete Reference with a PMCID. -/
def refPmc : Reference :=
  { title := "T", pmcid := some 12345, laboratory_paper := false, interesting_paper := false }

/-- Concrete Vendor whose stored company_slug was manually altered. -/
def vendorTF : Vendor :=
  { company := "Thermo Fisher", company_slug := "tampered" }

/-- Concrete Vendor whose company name has punctuation and edge hyphens. -/
def vendorDot : Vendor :=
  { company := "-a.b-" }

/-- Concrete Vendor with a plain two-word company name. -/
def vendorAcme : Vendor :=
  { company := "ACME Ltd." }

end ExperimentDB

namespace ExperimentDB

theorem isLower_iff (c : Char) : c.isLower = true ↔ 97 ≤ c.toNat ∧ c.toNat ≤ 122 := by
  simp [Char.isLower, UInt32.le_def, BitVec.le_def, Char.toNat, UInt32.toNat]

theorem isUpper_iff (c : Char) : c.isUpper = true ↔ 65 ≤ c.toNat ∧ c.toNat ≤ 90 := by
  simp [Char.isUpper, UInt32.le_def, BitVec.le_def, Char.toNat, UInt32.toNat]

theorem isDigit_iff (c : Char) : c.isDigit = true ↔ 48 ≤ c.toNat ∧ c.toNat ≤ 57 := by
  simp [Char.isDigit, UInt32.le_def, BitVec.le_def, Char.toNat, UInt32.toNat]

theorem toNat_ofNat_valid (n : Nat) (h : n < 55296) : (Char.ofNat n).toNat = n := by
  have hv : n.isValidChar := Or.inl h
  simp [Char.ofNat, hv, Char.ofNatAux, Char.toNat, UInt32.toNat, UInt32.ofNat']

theorem eq_of_toNat_eq {c d : Char} (h : c.toNat = d.toNat) : c = d := by
  have h1 := Char.ofNat_toNat c
  have h2 := Char.ofNat_toNat d
  rw [h] at h1
  rw [← h1, h2]

theorem word_toLower_slug (c : Char) (h : isWordAscii c = true) :
    isSlugNonDash (Char.toLower c) = true := by
  simp only [isWordAscii, Char.isAlphanum, Char.isAlpha, Bool.or_eq_true,
    isUpper_iff, isLower_iff, isDigit_iff, decide_eq_true_eq] at h
  simp only [Char.toLower]
  by_cases hc : c.toNat ≥ 65 ∧ c.toNat ≤ 90
  · rw [if_pos hc]
    have h97 : (Char.ofNat (c.toNat + 32)).toNat = c.toNat + 32 := by
      apply toNat_ofNat_valid
      omega
    simp only [isSlugNonDash, Bool.or_eq_true, isLower_iff, isDigit_iff]
    left
    left
    omega
  · rw [if_neg hc]
    simp only [isSlugNonDash, Bool.or_eq_true, isLower_iff, isDigit_iff,
      decide_eq_true_eq]
    rcases h with ((h1 | h1) | h1) | h1
    · exact absurd h1 hc
    · exact Or.inl (Or.inl h1)
    · exact Or.inl (Or.inr h1)
    · exact Or.inr h1

theorem pySpace_toLower_eq (c : Char) (h : isPySpace c = true) :
    Char.toLower c = c := by
  simp only [isPySpace, Bool.or_eq_true, decide_eq_true_eq] at h
  rcases h with ((((h | h) | h) | h) | h) | h <;> subst h <;> decide

theorem dash_ne_of_not_dashSpace {c : Char} (h : isDashSpace c = false) :
    c ≠ '-' := by
  intro hc
  subst hc
  simp [isDashSpace] at h

theorem collapseRuns_cons_nonDash (c : Char) (t : List Char)
    (h : isDashSpace c = false) : collapseRuns (c :: t) = c :: collapseRuns t := by
  cases t with
  | nil => simp [collapseRuns, h]
  | cons d rest => simp [collapseRuns, h]

theorem mem_collapseRuns (l : List Char) (x : Char) (hx : x ∈ collapseRuns l) :
    x = '-' ∨ (x ∈ l ∧ isDashSpace x = false) := by
  induction l using collapseRuns.induct with
  | case1 => simp [collapseRuns] at hx
  | case2 c h =>
      simp [collapseRuns, h] at hx
      exact Or.inl hx
  | case3 c h =>
      simp [collapseRuns, h] at hx
      subst hx
      exact Or.inr ⟨List.mem_singleton.mpr rfl, Bool.eq_false_iff.mpr h⟩
  | case4 c d rest h1 h2 ih =>
      rw [collapseRuns, if_pos h1, if_pos h2] at hx
      rcases ih hx with h | ⟨hm, hd⟩
      · exact Or.inl h
      · exact Or.inr ⟨List.mem_cons_of_mem c hm, hd⟩
  | case5 c d rest h1 h2 ih =>
      rw [collapseRuns, if_pos h1, if_neg h2] at hx
      rcases List.mem_cons.mp hx with h | h
      · exact Or.inl h
      · rcases ih h with h | ⟨hm, hd⟩
        · exact Or.inl h
        · exact Or.inr ⟨List.mem_cons_of_mem c hm, hd⟩
  | case6 c d rest h1 ih =>
      rw [collapseRuns, if_neg h1] at hx
      rcases List.mem_cons.mp hx with h | h
      · subst h
        exact Or.inr ⟨List.mem_cons_self x (d :: rest), Bool.eq_false_iff.mpr h1⟩
      · rcases ih h with h | ⟨hm, hd⟩
        · exact Or.inl h
        · exact Or.inr ⟨List.mem_cons_of_mem c hm, hd⟩

theorem noDD_cons_of_ne (c : Char) (X : List Char) (hc : c ≠ '-')
    (hX : noDD X = true) : noDD (c :: X) = true := by
  cases X with
  | nil => rfl
  | cons b t =>
      simp only [noDD, Bool.and_eq_true, Bool.not_eq_true']
      refine ⟨?_, hX⟩
      simp [hc]

theorem noDD_collapseRuns (l : List Char) : noDD (collapseRuns l) = true := by
  induction l using collapseRuns.induct with
  | case1 => rfl
  | case2 c h => simp [collapseRuns, h, noDD]
  | case3 c h => simp [collapseRuns, h, noDD]
  | case4 c d rest h1 h2 ih =>
      rw [collapseRuns, if_pos h1, if_pos h2]
      exact ih
  | case5 c d rest h1 h2 ih =>
      rw [collapseRuns, if_pos h1, if_neg h2]
      have h2f : isDashSpace d = false := Bool.eq_false_iff.mpr h2
      rw [collapseRuns_cons_nonDash d rest h2f] at ih ⊢
      simp only [noDD, Bool.and_eq_true, Bool.not_eq_true']
      refine ⟨?_, ih⟩
      simp [dash_ne_of_not_dashSpace h2f]
  | case6 c d rest h1 ih =>
      rw [collapseRuns, if_neg h1]
      exact noDD_cons_of_ne c _ (dash_ne_of_not_dashSpace (Bool.eq_false_iff.mpr h1)) ih

theorem mem_stripWs (l : List Char) (x : Char) (hx : x ∈ stripWs l) : x ∈ l := by
  unfold stripWs at hx
  rw [List.mem_reverse] at hx
  have hx2 := (List.dropWhile_sublist isPySpace).subset hx
  rw [List.mem_reverse] at hx2
  exact (List.dropWhile_sublist isPySpace).subset hx2

theorem goodSlug_slugify (s : String) : goodSlug (slugify s) = true := by
  unfold goodSlug slugify
  simp only [Bool.and_eq_true]
  constructor
  · rw [List.all_eq_true]
    intro x hx
    rcases mem_collapseRuns _ x hx with h | ⟨hm, hd⟩
    · subst h
      rfl
    · rcases List.mem_map.mp hm with ⟨c, hc, hlow⟩
      have hkeep : pyKeep c = true := (List.mem_filter.mp (mem_stripWs _ c hc)).2
      simp only [pyKeep, Bool.or_eq_true, decide_eq_true_eq] at hkeep
      rcases hkeep with (hw | hs) | hdash
      · subst hlow
        simp [goodSlugChar, word_toLower_slug c hw]
      · rw [pySpace_toLower_eq c hs] at hlow
        subst hlow
        simp [isDashSpace, hs] at hd
      · subst hdash
        subst hlow
        simp [isDashSpace] at hd
  · exact noDD_collapseRuns _

/-- C1: for every Contact with valid first_name and last_name, every call
to Contact.save sets contactID to slugify(first_name ++ " " ++ last_name)
before delegating to the persistence layer, recomputing it on every save
and overwriting any previously stored contactID, including one manually
altered between saves. -/
theorem contact_save_recomputes_contactID (c : Contact)
    (h1 : 0 < c.first_name.length) (h2 : c.first_name.length ≤ 25)
    (h3 : 0 < c.last_name.length) (h4 : c.last_name.length ≤ 25) :
    (Contact.save c).contactID = some (slugify (c.first_name ++ " " ++ c.last_name)) ∧
    ∀ x : Option String, (Contact.save { c with contactID := x }).contactID =
      some (slugify (c.first_name ++ " " ++ c.last_name)) :=
  ⟨rfl, fun _ => rfl⟩

/-- Witness for C1 at a concrete Contact whose stored contactID was
manually altered before the save. -/
theorem contact_save_recomputes_contactID_witness :
    (Contact.save contactJD).contactID = some "john-doe" := by
  have h := (contact_save_recomputes_contactID contactJD
    (by decide) (by decide) (by decide) (by decide)).1
  rw [h]
  rfl

/-- C2: title_slug is derived from the title exactly once, at initial
creation: the first save of a Reference without identity sets
title_slug = slugify(title), and a later save of the persisted record
leaves title_slug unchanged even after the title has been modified. -/
theorem reference_title_slug_set_once (r : Reference) (fresh : Nat) (t2 : String)
    (hfresh : fresh ≠ 0) (hnew : idTruthy r.id = false) :
    (Reference.save r).title_slug = some (slugify r.title) ∧
    (Reference.save { Reference.dbAssignId (Reference.save r) fresh with
      title := t2 }).title_slug = some (slugify r.title) := by
  have h1 : Reference.save r = { r with title_slug := some (slugify r.title) } := by
    simp [Reference.save, hnew]
  constructor
  · rw [h1]
  · have h2 : Reference.dbAssignId (Reference.save r) fresh =
        { r with title_slug := some (slugify r.title), id := some fresh } := by
      rw [h1]
      simp [Reference.dbAssignId, hnew]
    rw [h2]
    simp [Reference.save, idTruthy, hfresh]

/-- Witness for C2: a Reference titled "Cell Biology 101" gets title_slug
"cell-biology-101" on first save; after the database assigns it id 1 and
the title is changed to "Cell Biology 202", saving again keeps the slug. -/
theorem reference_title_slug_set_once_witness :
    (Reference.save refCell).title_slug = some "cell-biology-101" ∧
    (Reference.save { Reference.dbAssignId (Reference.save refCell) 1 with
        title := "Cell Biology 202" }).title_slug = some "cell-biology-101" := by
  have h := reference_title_slug_set_once refCell 1 "Cell Biology 202" (by decide) rfl
  exact ⟨by rw [h.1]; rfl, by rw [h.2]; rfl⟩

/-- C3: for every Vendor with a valid company string, every call to
Vendor.save sets company_slug to slugify(company) before delegating to
the persistence layer, recomputing and overwriting the stored value on
every save. -/
theorem vendor_save_recomputes_company_slug (v : Vendor)
    (h1 : 0 < v.company.length) (h2 : v.company.length ≤ 100) :
    (Vendor.save v).company_slug = slugify v.company ∧
    ∀ x : String, (Vendor.save { v with company_slug := x }).company_slug =
      slugify v.company :=
  ⟨rfl, fun _ => rfl⟩

/-- Witness for C3 at a concrete Vendor whose stored company_slug was
manually altered before the save. -/
theorem vendor_save_recomputes_company_slug_witness :
    (Vendor.save vendorTF).company_slug = "thermo-fisher" := by
  have h := (vendor_save_recomputes_company_slug vendorTF (by decide) (by decide)).1
  rw [h]
  rfl

/-- C4 counterexample: the spec's slug contract (maximal non-alphanumeric
runs collapsed to single hyphens, leading and trailing hyphens trimmed)
disagrees with the code. Saving a Vendor whose company is "-a.b-" stores
company_slug "-ab-": the period is deleted rather than collapsed to a
hyphen, and the leading and trailing hyphens are not trimmed, while the
spec's contract would give "a-b". -/
theorem slug_contract_spec_counterexample :
    (Vendor.save vendorDot).company_slug = "-ab-" ∧
    specSlug vendorDot.company = "a-b" ∧
    (Vendor.save vendorDot).company_slug ≠ specSlug vendorDot.company :=
  ⟨rfl, rfl, by decide⟩

/-- C4 amended: after any save of a Contact or Vendor and after the first
save of a Reference, the derived slug field is a URL-safe string
containing only lowercase ASCII letters, digits, underscores and hyphens,
with no whitespace and no two consecutive hyphens (runs of whitespace and
hyphens are collapsed to single hyphens; other non-alphanumeric
characters are deleted, and leading or trailing hyphens are kept). -/
theorem saved_slugs_urlsafe (c : Contact) (v : Vendor) (r : Reference)
    (h : idTruthy r.id = false) :
    (∃ s, (Contact.save c).contactID = some s ∧ goodSlug s = true) ∧
    goodSlug (Vendor.save v).company_slug = true ∧
    (∃ s, (Reference.save r).title_slug = some s ∧ goodSlug s = true) := by
  refine ⟨⟨slugify c.unicodeRepr, rfl, goodSlug_slugify _⟩,
    goodSlug_slugify _, ⟨slugify r.title, ?_, goodSlug_slugify _⟩⟩
  simp [Reference.save, h]

/-- Witness for C4 amended at concrete records. -/
theorem saved_slugs_urlsafe_witness :
    (∃ s, (Contact.save contactJD).contactID = some s ∧ goodSlug s = true) ∧
    goodSlug (Vendor.save vendorAcme).company_slug = true ∧
    (∃ s, (Reference.save refCell).title_slug = some s ∧ goodSlug s = true) :=
  saved_slugs_urlsafe contactJD vendorAcme refCell rfl

/-- C5 counterexample: the empty string is outside the fixed enumerated
publication-type set, yet creating a Reference with type = "" does not
fail validation of that field, because the column is declared
`blank=True` and Django exempts empty values from the choices check. -/
theorem reference_type_blank_counterexample :
    "" ∉ publicationTypeValues ∧
    Reference.validateType (some "") = Except.ok () :=
  ⟨by decide, rfl⟩

/-- C5 amended: creating a Reference whose type field holds a non-empty
value outside the fixed enumerated publication-type set fails validation
with an enumerated-value-not-in-set error, and every value inside the
set passes validation of that field; the empty string, although outside
the set, is exempt (`blank=True`). -/
theorem reference_type_choice_validation (s : String) (h1 : s ≠ "")
    (h2 : s ∉ publicationTypeValues) :
    Reference.validateType (some s) = Except.error "invalid_choice" ∧
    publicationTypeValues.all (fun v => isOk (Reference.validateType (some v))) = true := by
  constructor
  · have hdef : Reference.validateType (some s) =
        (if s = "" then Except.ok ()
         else if publicationTypeValues.contains s then Except.ok ()
         else Except.error "invalid_choice") := rfl
    rw [hdef, if_neg h1, if_neg ?_]
    intro hc
    exact h2 (by simpa using hc)
  · decide

/-- Witness for C5 amended at the out-of-set value "not-a-real-type". -/
theorem reference_type_choice_validation_witness :
    Reference.validateType (some "not-a-real-type") = Except.error "invalid_choice" ∧
    publicationTypeValues.all (fun v => isOk (Reference.validateType (some v))) = true :=
  reference_type_choice_validation "not-a-real-type" (by decide) (by decide)

/-- C6: each overridden save touches only its own record's derived slug
field before delegating to the persistence layer: Contact.save changes no
field other than contactID, Vendor.save none other than company_slug, and
Reference.save none other than title_slug. -/
theorem save_touches_only_derived_slug (c : Contact) (v : Vendor) (r : Reference) :
    ((Contact.save c).id = c.id ∧ (Contact.save c).first_name = c.first_name ∧
     (Contact.save c).middle_names = c.middle_names ∧
     (Contact.save c).last_name = c.last_name ∧ (Contact.save c).user = c.user ∧
     (Contact.save c).email = c.email ∧ (Contact.save c).website = c.website ∧
     (Contact.save c).address = c.address ∧ (Contact.save c).comments = c.comments ∧
     (Contact.save c).public = c.public) ∧
    ((Vendor.save v).id = v.id ∧ (Vendor.save v).company = v.company) ∧
    ((Reference.save r).id = r.id ∧ (Reference.save r).mendeley_url = r.mendeley_url ∧
     (Reference.save r).title = r.title ∧ (Reference.save r).authors = r.authors ∧
     (Reference.save r).mendeley_id = r.mendeley_id ∧ (Reference.save r).doi = r.doi ∧
     (Reference.save r).pmid = r.pmid ∧ (Reference.save r).pmcid = r.pmcid ∧
     (Reference.save r).journal = r.journal ∧ (Reference.save r).year = r.year ∧
     (Reference.save r).volume = r.volume ∧ (Reference.save r).issue = r.issue ∧
     (Reference.save r).pages = r.pages ∧ (Reference.save r).abstract = r.abstract ∧
     (Reference.save r).type = r.type ∧
     (Reference.save r).laboratory_paper = r.laboratory_paper ∧
     (Reference.save r).interesting_paper = r.interesting_paper) := by
  refine ⟨⟨rfl, rfl, rfl, rfl, rfl, rfl, rfl, rfl, rfl, rfl⟩, ⟨rfl, rfl⟩, ?_⟩
  by_cases h : idTruthy r.id
  · simp [Reference.save, h]
  · simp [Reference.save, h]

/-- C7: there is a Contact whose first_name and last_name each respect
the declared 25-character maxima while the contactID computed by save is
strictly longer than that field's declared 20-character maximum —
Contact.save performs no truncation or length check. -/
theorem contact_slug_can_exceed_field_max :
    ∃ c : Contact, c.first_name.length ≤ 25 ∧ c.last_name.length ≤ 25 ∧
      ∃ s : String, (Contact.save c).contactID = some s ∧ 20 < s.length := by
  refine ⟨contactLong, by decide, by decide, "abcdefghijklmnopqrstuvwxy-z", ?_, by decide⟩
  rfl

/-- C8: for every Reference whose doi field holds a string d, doi_link
returns "http://dx.doi.org/" followed immediately by d, with no
validation or transformation of d. -/
theorem doi_link_prefixes_resolver (r : Reference) (d : String)
    (h : r.doi = some d) : r.doi_link = "http://dx.doi.org/" ++ d := by
  simp [Reference.doi_link, pyStrOptS, h]

/-- Witness for C8 at doi = "10.1/xyz". -/
theorem doi_link_prefixes_resolver_witness :
    refDoi.doi_link = "http://dx.doi.org/10.1/xyz" := by
  rw [doi_link_prefixes_resolver refDoi "10.1/xyz" rfl]
  rfl

/-- C9: for every Reference whose pmcid field holds an integer n,
full_pmcid returns "PMC" followed immediately by the decimal rendering
of n. -/
theorem full_pmcid_prefixes_pmc (r : Reference) (n : Int)
    (h : r.pmcid = some n) : r.full_pmcid = "PMC" ++ toString n := by
  simp [Reference.full_pmcid, pyStrOptI, h]

/-- Witness for C9 at pmcid = 12345. -/
theorem full_pmcid_prefixes_pmc_witness :
    refPmc.full_pmcid = "PMC12345" := by
  rw [full_pmcid_prefixes_pmc refPmc 12345 rfl]
  rfl

/-- C10: the Contact listing query returns Contacts sorted ascending by
last_name and the Vendor listing query returns Vendors sorted ascending
by company, each a permutation of the stored records. -/
theorem listings_sorted_by_declared_field (cs : List Contact) (vs : List Vendor) :
    List.Pairwise (fun a b : Contact => a.last_name ≤ b.last_name) (Contact.listing cs) ∧
    (Contact.listing cs).Perm cs ∧
    List.Pairwise (fun a b : Vendor => a.company ≤ b.company) (Vendor.listing vs) ∧
    (Vendor.listing vs).Perm vs := by
  refine ⟨?_, List.mergeSort_perm cs _, ?_, List.mergeSort_perm vs _⟩
  · have ht : ∀ a b c : Contact, decide (a.last_name ≤ b.last_name) = true →
        decide (b.last_name ≤ c.last_name) = true →
        decide (a.last_name ≤ c.last_name) = true := by
      intro a b c hab hbc
      simp only [decide_eq_true_eq] at hab hbc ⊢
      exact le_trans hab hbc
    have htot : ∀ a b : Contact, (decide (a.last_name ≤ b.last_name) ||
        decide (b.last_name ≤ a.last_name)) = true := by
      intro a b
      simp only [Bool.or_eq_true, decide_eq_true_eq]
      exact le_total a.last_name b.last_name
    have h := List.sorted_mergeSort ht htot cs
    refine h.imp ?_
    intro a b hab
    simpa using hab
  · have ht : ∀ a b c : Vendor, decide (a.company ≤ b.company) = true →
        decide (b.company ≤ c.company) = true →
        decide (a.company ≤ c.company) = true := by
      intro a b c hab hbc
      simp only [decide_eq_true_eq] at hab hbc ⊢
      exact le_trans hab hbc
    have htot : ∀ a b : Vendor, (decide (a.company ≤ b.company) ||
        decide (b.company ≤ a.company)) = true := by
      intro a b
      simp only [Bool.or_eq_true, decide_eq_true_eq]
      exact le_total a.company b.company
    have h := List.sorted_mergeSort ht htot vs
    refine h.imp ?_
    intro a b hab
    simpa using hab

end ExperimentDB
